import Mathlib

/-!
Verification of the MediTrack clinic record manager (`assessment/MediTrack (1).py`):
a shallow embedding of its entity model, SQLite-backed repository, role gate,
patient-form validation and regex report search, together with proofs of the
specified properties.

Numeric fields that the source stores as Python floats (consultation fee,
medicines total, tax percentage) are embedded as rationals; `round(x, 2)` is
embedded as rounding `x * 100` to the nearest integer and dividing by 100.
-/

namespace MediTrack

/-- Error taxonomy of the application: `AccessDenied` and `ValidationError`
are the custom exception classes of the source; `patternError` stands for
`re.error` raised on a malformed pattern. -/
inductive AppErr where
  | accessDenied (role : String) (operation : String)
  | validationError (msg : String)
  | patternError (msg : String)
deriving DecidableEq, Repr

/-- Embedding of `@dataclass Patient` (name, age, gender, phone, disease,
status, optional id assigned by the store). -/
structure Patient where
  name : String
  age : Int
  gender : String
  phone : String
  disease : String := ""
  status : String := "New"
  id : Option Nat := none
deriving DecidableEq, Repr

/-- Embedding of `@dataclass Appointment`. -/
structure Appointment where
  patient_id : Nat
  doctor : String
  date : String
  time : String
  notes : String := ""
  id : Option Nat := none
deriving DecidableEq, Repr

/-- Embedding of `@dataclass Invoice`; `created_at` is an opaque timestamp
string supplied at construction. -/
structure Invoice where
  patient_id : Nat
  consultation_fee : ℚ := 0
  medicines_total : ℚ := 0
  tax_pct : ℚ := 18
  created_at : String := ""
  id : Option Nat := none
deriving DecidableEq, Repr

/-- Python `round(x, 2)`: round to two decimal places (ties are immaterial to
the specified values). -/
def round2 (x : ℚ) : ℚ := (round (x * 100) : ℤ) / 100

/-- Embedding of `Invoice.total(include_tax=True)`:
`subtotal = consultation_fee + medicines_total`; with tax the result is
`round(subtotal * (1 + tax_pct / 100.0), 2)`, otherwise `round(subtotal, 2)`. -/
def Invoice.total (inv : Invoice) (include_tax : Bool := true) : ℚ :=
  let subtotal := inv.consultation_fee + inv.medicines_total
  if include_tax then round2 (subtotal * (1 + inv.tax_pct / 100)) else round2 subtotal

/-- The sample invoice of the spec: fee 300, medicines 0, tax 18%. -/
def sampleInvoice : Invoice :=
  { patient_id := 1, consultation_fee := 300, medicines_total := 0, tax_pct := 18 }

/-- A stored row of the `patients` table. `disease` and `status` are the two
columns declared without `NOT NULL`, hence nullable (`Option`). -/
structure PRow where
  id : Nat
  name : String
  age : Int
  gender : String
  phone : String
  disease : Option String
  status : Option String
deriving DecidableEq, Repr

/-- A stored row of the `appointments` table. -/
structure ARow where
  id : Nat
  patient_id : Nat
  doctor : String
  date : String
  time : String
  notes : Option String
deriving DecidableEq, Repr

/-- A stored row of the `invoices` table. -/
structure IRow where
  id : Nat
  patient_id : Nat
  consultation_fee : ℚ
  medicines_total : ℚ
  tax_pct : ℚ
  created_at : String
deriving DecidableEq, Repr

/-- The persisted state owned by `Repo`: the three tables plus the
auto-increment counter of each `INTEGER PRIMARY KEY AUTOINCREMENT` column. -/
structure DB where
  patients : List PRow
  appointments : List ARow
  invoices : List IRow
  nextPatientId : Nat := 1
  nextApptId : Nat := 1
  nextInvoiceId : Nat := 1
deriving DecidableEq, Repr

/-- The empty database produced by `init_db` on a fresh file. -/
def DB.empty : DB := { patients := [], appointments := [], invoices := [] }

/-- Auto-increment freshness: every stored patient id is below the counter,
which SQLite's `AUTOINCREMENT` guarantees for rows the adapter inserted. -/
def DB.freshPatients (db : DB) : Prop :=
  ∀ r ∈ db.patients, r.id < db.nextPatientId

/-- Embedding of `Repo.add_patient`: `INSERT INTO patients(name, age, gender,
phone, disease, status) VALUES (...)` followed by `commit`; returns
`cur.lastrowid`, the freshly assigned identity. -/
def Repo.add_patient (db : DB) (p : Patient) : DB × Nat :=
  let pid := db.nextPatientId
  ({ db with
      patients := db.patients ++
        [⟨pid, p.name, p.age, p.gender, p.phone, some p.disease, some p.status⟩],
      nextPatientId := pid + 1 }, pid)

/-- Conversion performed by `get_patient` / `all_patients` from a fetched row
back to a `Patient` value (nullable columns read back as empty strings). -/
def PRow.toPatient (r : PRow) : Patient :=
  { id := some r.id, name := r.name, age := r.age, gender := r.gender,
    phone := r.phone, disease := r.disease.getD "", status := r.status.getD "" }

/-- Embedding of `Repo.get_patient`: `SELECT ... FROM patients WHERE id=?`,
`fetchone`; returns the matching row as a `Patient`, or `none`. -/
def Repo.get_patient (db : DB) (pid : Nat) : Option Patient :=
  (db.patients.find? (fun r => r.id = pid)).map PRow.toPatient

/-- Embedding of `Repo.update_patient`: raises `ValidationError` when
`p.id is None`, before touching the store; otherwise runs the `UPDATE` and
commits. The unchanged database is returned alongside the error outcome. -/
def Repo.update_patient (db : DB) (p : Patient) : DB × Except AppErr Unit :=
  match p.id with
  | none => (db, .error (.validationError "Patient ID required for update"))
  | some pid =>
      ({ db with
          patients := db.patients.map (fun r =>
            if r.id = pid then
              ⟨r.id, p.name, p.age, p.gender, p.phone, some p.disease, some p.status⟩
            else r) }, .ok ())

/-- Embedding of `Repo.add_appointment`. -/
def Repo.add_appointment (db : DB) (a : Appointment) : DB × Nat :=
  let aid := db.nextApptId
  ({ db with
      appointments := db.appointments ++
        [⟨aid, a.patient_id, a.doctor, a.date, a.time, some a.notes⟩],
      nextApptId := aid + 1 }, aid)

/-- Embedding of `Repo.add_invoice`. -/
def Repo.add_invoice (db : DB) (inv : Invoice) : DB × Nat :=
  let iid := db.nextInvoiceId
  ({ db with
      invoices := db.invoices ++
        [⟨iid, inv.patient_id, inv.consultation_fee, inv.medicines_total,
          inv.tax_pct, inv.created_at⟩],
      nextInvoiceId := iid + 1 }, iid)

/-- Modelled from the spec: no patient-delete operation exists in the source;
the schema declares `FOREIGN KEY(patient_id) REFERENCES patients(id) ON DELETE
CASCADE` on both `appointments` and `invoices` (with `PRAGMA foreign_keys=ON`),
and the spec states that deleting a patient cascades delete to its appointments
and invoices. This is the cascade the relational engine performs when the
patient row with identity `pid` is deleted. -/
def deletePatient (db : DB) (pid : Nat) : DB :=
  { db with
      patients := db.patients.filter (fun r => r.id ≠ pid),
      appointments := db.appointments.filter (fun a => a.patient_id ≠ pid),
      invoices := db.invoices.filter (fun i => i.patient_id ≠ pid) }

/-- Referential integrity of a database state: every appointment and every
invoice references an existing patient row. -/
def DB.refIntegrity (db : DB) : Prop :=
  (∀ a ∈ db.appointments, ∃ r ∈ db.patients, r.id = a.patient_id)
    ∧ ∀ i ∈ db.invoices, ∃ r ∈ db.patients, r.id = i.patient_id

/-- Modelled from the spec: regular expressions as used through Python's `re`
module (an external library). Literal characters, `.`, alternation,
concatenation and repetition — the fragment exercised by the reports tab. -/
inductive Regex where
  | emp
  | eps
  | chr (c : Char)
  | dot
  | alt (r s : Regex)
  | cat (r s : Regex)
  | star (r : Regex)
deriving DecidableEq, Repr

/-- Whether a regular expression accepts the empty string. -/
def Regex.nullable : Regex → Bool
  | .emp => false
  | .eps => true
  | .chr _ => false
  | .dot => false
  | .alt r s => r.nullable || s.nullable
  | .cat r s => r.nullable && s.nullable
  | .star _ => true

/-- Brzozowski derivative of a regular expression by one character. -/
def Regex.deriv : Regex → Char → Regex
  | .emp, _ => .emp
  | .eps, _ => .emp
  | .chr c, a => if a = c then .eps else .emp
  | .dot, _ => .eps
  | .alt r s, a => .alt (r.deriv a) (s.deriv a)
  | .cat r s, a =>
      if r.nullable then .alt (.cat (r.deriv a) s) (s.deriv a)
      else .cat (r.deriv a) s
  | .star r, a => .cat (r.deriv a) (.star r)

/-- Full match of a character list against a regular expression. -/
def Regex.rmatch : Regex → List Char → Bool
  | r, [] => r.nullable
  | r, c :: cs => (r.deriv c).rmatch cs

/-- Unanchored containment, the semantics of `rx.search`: some substring of
`s` matches, i.e. `.*r.*` matches the whole string. -/
def Regex.found (r : Regex) (s : List Char) : Bool :=
  (Regex.cat (.star .dot) (Regex.cat r (.star .dot))).rmatch s

/-- Python `str.strip()`: remove leading and trailing whitespace. -/
def strip (s : String) : String :=
  ⟨((s.data.dropWhile Char.isWhitespace).reverse.dropWhile Char.isWhitespace).reverse⟩

/-- Lowercase a string character by character (`str.lower()`). -/
def lowerChars (s : String) : List Char := s.data.map Char.toLower

/-- Case-insensitive `rx.search(s)` for a pattern compiled with
`re.IGNORECASE`: the compiled pattern's literals are lowercased (see
`compile`) and the subject string is lowercased before matching. -/
def searchCI (r : Regex) (s : String) : Bool := r.found (lowerChars s)

/-- Rejects a stacked repetition operator (`a**`), as `re.compile` does. -/
def noMoreRep (r : Regex) : List Char → Except String (Regex × List Char)
  | '*' :: _ => .error "multiple repeat"
  | '+' :: _ => .error "multiple repeat"
  | '?' :: _ => .error "multiple repeat"
  | cs => pure (r, cs)

mutual

/-- Modelled from the spec: `re.compile` of an alternation
`cat ('|' cat)*`, fuel-bounded recursive descent. -/
def parseAlt : Nat → List Char → Except String (Regex × List Char)
  | 0, _ => .error "pattern too deep"
  | Nat.succ fuel, cs => do
      let (r, rest) ← parseCat fuel cs
      match rest with
      | '|' :: rest2 => do
          let (s, rest3) ← parseAlt fuel rest2
          pure (.alt r s, rest3)
      | _ => pure (r, rest)

/-- Modelled from the spec: `re.compile` of a concatenation of repeated
atoms, ending at the end of input, `)` or `|`. -/
def parseCat : Nat → List Char → Except String (Regex × List Char)
  | 0, _ => .error "pattern too deep"
  | Nat.succ fuel, cs =>
      match cs with
      | [] => pure (.eps, [])
      | ')' :: _ => pure (.eps, cs)
      | '|' :: _ => pure (.eps, cs)
      | _ => do
          let (r, rest) ← parseRep fuel cs
          let (s, rest2) ← parseCat fuel rest
          pure (.cat r s, rest2)

/-- Modelled from the spec: an atom with an optional postfix repetition
operator `*`, `+` or `?`; a second repetition operator is `multiple repeat`,
an error, as in `re`. -/
def parseRep : Nat → List Char → Except String (Regex × List Char)
  | 0, _ => .error "pattern too deep"
  | Nat.succ fuel, cs => do
      let (r, rest) ← parseAtom fuel cs
      match rest with
      | '*' :: rest2 => noMoreRep (.star r) rest2
      | '+' :: rest2 => noMoreRep (.cat r (.star r)) rest2
      | '?' :: rest2 => noMoreRep (.alt r .eps) rest2
      | _ => pure (r, rest)

/-- Modelled from the spec: `re.compile` of a single atom — a parenthesised
group (whose missing `)` is the `missing ), unterminated subpattern` error),
`.`, or a literal character, lowercased to embed `re.IGNORECASE`. -/
def parseAtom : Nat → List Char → Except String (Regex × List Char)
  | 0, _ => .error "pattern too deep"
  | Nat.succ fuel, cs =>
      match cs with
      | [] => .error "nothing to match"
      | '(' :: rest => do
          let (r, rest2) ← parseAlt fuel rest
          match rest2 with
          | ')' :: rest3 => pure (r, rest3)
          | _ => .error "missing ), unterminated subpattern"
      | ')' :: _ => .error "unbalanced parenthesis"
      | '*' :: _ => .error "nothing to repeat"
      | '+' :: _ => .error "nothing to repeat"
      | '?' :: _ => .error "nothing to repeat"
      | '.' :: rest => pure (.dot, rest)
      | c :: rest => pure (.chr c.toLower, rest)

end

/-- Modelled from the spec: `re.compile(pattern, flags=re.IGNORECASE)` over
the modelled fragment; a malformed pattern (unbalanced group, dangling
repetition) is a `PatternError`. -/
def compile (pattern : String) : Except String Regex := do
  let (r, rest) ← parseAlt (4 * pattern.length + 8) pattern.data
  match rest with
  | [] => pure r
  | _ => .error "unbalanced parenthesis"

/-- The column actually consulted:
`col = "disease" if field not in ("status", "name") else field`. -/
def colOf (field : String) : String :=
  if field ∉ ["status", "name"] then "disease" else field

/-- The value of a named column in a patient row (`name` is `NOT NULL`). -/
def colVal (col : String) (r : PRow) : Option String :=
  if col = "status" then r.status
  else if col = "name" then some r.name
  else r.disease

/-- Embedding of `Repo.regex_query`: selects `(id, name, col)` for every
patient, compiles the pattern case-insensitively, and keeps `(name, id)` for
the rows whose column value — `str(r[2] or "")`, null read as the empty
string — contains a match. -/
def Repo.regex_query (db : DB) (pattern : String) (field : String := "disease") :
    Except AppErr (List (String × Nat)) :=
  match compile pattern with
  | .error e => .error (.patternError e)
  | .ok rx =>
      .ok (db.patients.filterMap (fun r =>
        if searchCI rx ((colVal (colOf field) r).getD "") then some (r.name, r.id)
        else none))

/-- Embedding of the `require_role(*allowed_roles)` decorator: when
`self.current_role` is not among the allowed roles the wrapped function is
not called and `AccessDenied` is raised (after a warning dialog and an
`ACCESS DENIED` log line, presentation side effects); otherwise the wrapped
body runs. The untouched database is returned alongside a denial. -/
def require_role {α : Type} (allowed : List String) (role : String)
    (opName : String) (body : DB → DB × Except AppErr α) (db : DB) :
    DB × Except AppErr α :=
  if role ∈ allowed then body db
  else (db, .error (.accessDenied role opName))

/-- The fixed allowed-role set of `on_create_invoice`:
`@require_role("Admin", "Doctor")` — Receptionist deliberately excluded. -/
def invoiceRoles : List String := ["Admin", "Doctor"]

/-- The fixed allowed-role set of the patient and appointment mutations:
`@require_role("Admin", "Receptionist", "Doctor")`. -/
def patientRoles : List String := ["Admin", "Receptionist", "Doctor"]

/-- Embedding of `MediTrackApp.on_create_invoice` with the form fields
already parsed (`int(...)` / `float(...)`): gate on `{Admin, Doctor}`, check
the patient exists, insert the invoice and return its identity. -/
def on_create_invoice (role : String) (db : DB) (pid : Nat)
    (fee med tax : ℚ) (now : String) : DB × Except AppErr Nat :=
  require_role invoiceRoles role "on_create_invoice" (fun db =>
    match Repo.get_patient db pid with
    | none => (db, .error (.validationError "Patient ID not found"))
    | some _ =>
        let (db2, iid) := Repo.add_invoice db
          { patient_id := pid, consultation_fee := fee, medicines_total := med,
            tax_pct := tax, created_at := now }
        (db2, .ok iid)) db

/-- The raw patient form of the Patients tab (all entries are strings). -/
structure PatientForm where
  name : String
  ageStr : String
  gender : String
  phone : String
  disease : String
  status : String
deriving DecidableEq, Repr

/-- The phone test of `_validate_patient`:
`re.fullmatch(r"[0-9]{10}", phone)` — exactly ten decimal digits. -/
def phoneOk (s : String) : Bool := s.length = 10 && s.data.all Char.isDigit

/-- Modelled from the spec: Python's built-in `int(s)` on a form entry —
optional surrounding whitespace, an optional sign, then a nonempty run of
decimal digits; anything else raises `ValueError` (here `none`). -/
def intOfStr (s : String) : Option Int :=
  let digits : List Char → Option Nat := fun cs =>
    if cs ≠ [] ∧ cs.all Char.isDigit then
      some (cs.foldl (fun n c => 10 * n + (c.toNat - 48)) 0)
    else none
  match (strip s).data with
  | '-' :: cs => (digits cs).map (fun n => -(n : Int))
  | '+' :: cs => (digits cs).map (fun n => (n : Int))
  | cs => (digits cs).map (fun n => (n : Int))

/-- Embedding of `MediTrackApp._validate_patient`: `int(age)` must parse
(`ValidationError "Age must be a number"` otherwise), the stripped phone must
be exactly ten digits (`ValidationError "Phone must be 10 digits"`), and the
resulting `Patient` carries the stripped name and disease. -/
def validate_patient (form : PatientForm) : Except AppErr Patient :=
  match intOfStr form.ageStr with
  | none => .error (.validationError "Age must be a number")
  | some age =>
      let phone := strip form.phone
      if phoneOk phone then
        .ok { name := strip form.name, age := age, gender := form.gender,
              phone := phone, disease := strip form.disease, status := form.status }
      else .error (.validationError "Phone must be 10 digits")

/-- Embedding of `MediTrackApp.on_save_patient`: gate on
`{Admin, Receptionist, Doctor}`, validate the form, then
`Repo.add_patient`; a validation failure reaches no store operation. -/
def on_save_patient (role : String) (db : DB) (form : PatientForm) :
    DB × Except AppErr Nat :=
  require_role patientRoles role "on_save_patient" (fun db =>
    match validate_patient form with
    | .error e => (db, .error e)
    | .ok p =>
        let (db2, pid) := Repo.add_patient db p
        (db2, .ok pid)) db

/-- The reports tab's result table (`self.tree_rx`). -/
structure ReportsUI where
  displayed : List (String × Nat)
deriving DecidableEq, Repr

/-- Embedding of `MediTrackApp.on_regex_search`: strip the pattern, run
`regex_query`; on success clear the table and show the results, on `re.error`
show a dialog and leave the table untouched. -/
def on_regex_search (db : DB) (ui : ReportsUI) (patternRaw field : String) :
    ReportsUI × Option AppErr :=
  match Repo.regex_query db (strip patternRaw) field with
  | .ok results => ({ displayed := results }, none)
  | .error e => (ui, some e)

/-- Sample stored state used by the spec's search example: three patients
with diseases Covid-19, Flu and Diabetes. -/
def db3 : DB :=
  { patients :=
      [⟨1, "A", 30, "Female", "9876543210", some "Covid-19", some "New"⟩,
        ⟨2, "B", 40, "Male", "9876543210", some "Flu", some "New"⟩,
        ⟨3, "C", 50, "Male", "9876543210", some "Diabetes", some "New"⟩],
    appointments := [], invoices := [], nextPatientId := 4 }

/-- Sample stored state with referential integrity: one appointment and one
invoice, both for patient 1 of `db3`. -/
def db9 : DB :=
  { patients := db3.patients,
    appointments := [⟨1, 1, "Dr. Smith", "2025-01-01", "10:00", some ""⟩],
    invoices := [⟨1, 1, 300, 0, 18, "2025-01-01 10:00:00"⟩],
    nextPatientId := 4, nextApptId := 2, nextInvoiceId := 2 }

/-- A sample valid patient input (no identity before persistence). -/
def samplePatient : Patient :=
  { name := "Asha", age := 30, gender := "Female", phone := "9876543210",
    disease := "Flu", status := "New" }

/-- A patient value whose phone fails the ten-digit invariant. -/
def badPhonePatient : Patient :=
  { name := "Ravi", age := 40, gender := "Male", phone := "12345",
    disease := "Cold", status := "New" }

/-- The compiled form of the pattern `covid|flu` under `compile`. -/
def covidFluRx : Regex :=
  .alt
    (.cat (.chr 'c')
      (.cat (.chr 'o') (.cat (.chr 'v') (.cat (.chr 'i') (.cat (.chr 'd') .eps)))))
    (.cat (.chr 'f') (.cat (.chr 'l') (.cat (.chr 'u') .eps)))

/-- After `add_patient`, `get_patient` on the returned identity finds exactly
the inserted row (the freshness of auto-increment identities keeps older rows
out of the way of `find?`). -/
theorem get_patient_after_add (db : DB) (p : Patient) (h : db.freshPatients) :
    Repo.get_patient (Repo.add_patient db p).1 (Repo.add_patient db p).2
      = some { p with id := some (Repo.add_patient db p).2 } := by
  have hnone : db.patients.find? (fun r => r.id = db.nextPatientId) = none := by
    rw [List.find?_eq_none]
    intro r hr
    simpa using Nat.ne_of_lt (h r hr)
  simp [Repo.get_patient, Repo.add_patient, List.find?_append, hnone,
    List.find?, PRow.toPatient]

end MediTrack

namespace MediTrack

/-- C1: for every invoice, `total true` is the taxed subtotal rounded to two
decimals and `total false` is the un-taxed subtotal rounded to two decimals;
the invoice with fee 300, medicines 0, tax 18 has totals 354.00 and 300.00. -/
theorem C1_invoice_total (inv : Invoice) :
    inv.total true
        = round2 ((inv.consultation_fee + inv.medicines_total) * (1 + inv.tax_pct / 100))
      ∧ inv.total false = round2 (inv.consultation_fee + inv.medicines_total)
      ∧ sampleInvoice.total true = 354
      ∧ sampleInvoice.total false = 300 := by
  refine ⟨rfl, rfl, ?_, ?_⟩ <;>
    simp [sampleInvoice, Invoice.total, round2] <;> norm_num [round_eq]

/-- C2: a gated operation whose caller's role is outside the allowed-role set
denies with `AccessDenied` and leaves the state unchanged; in particular an
invoice create as Receptionist always denies and creates no invoice row,
while Doctor is in the invoice gate's allowed set. -/
theorem C2_access_gate {α : Type} (allowed : List String) (role opName : String)
    (body : DB → DB × Except AppErr α) (db : DB) (h : role ∉ allowed) :
    require_role allowed role opName body db
        = (db, .error (.accessDenied role opName))
      ∧ (∀ db2 : DB, ∀ pid : Nat, ∀ fee med tax : ℚ, ∀ now : String,
          on_create_invoice "Receptionist" db2 pid fee med tax now
            = (db2, .error (.accessDenied "Receptionist" "on_create_invoice")))
      ∧ "Doctor" ∈ invoiceRoles := by
  have hrec : "Receptionist" ∉ invoiceRoles := by decide
  refine ⟨by simp [require_role, h], ?_, by decide⟩
  intro db2 pid fee med tax now
  simp [on_create_invoice, require_role, hrec]

/-- Witness for C2 at a concrete denied call. -/
theorem C2_access_gate_witness :
    "Receptionist" ∉ invoiceRoles
      ∧ (require_role invoiceRoles "Receptionist" "on_create_invoice"
            (fun db => (db, (.error (.validationError "x") : Except AppErr Nat)))
            DB.empty
            = (DB.empty,
                .error (AppErr.accessDenied "Receptionist" "on_create_invoice"))
          ∧ (∀ db2 : DB, ∀ pid : Nat, ∀ fee med tax : ℚ, ∀ now : String,
              on_create_invoice "Receptionist" db2 pid fee med tax now
                = (db2,
                    .error (.accessDenied "Receptionist" "on_create_invoice")))
          ∧ "Doctor" ∈ invoiceRoles) :=
  ⟨by decide,
    C2_access_gate invoiceRoles "Receptionist" "on_create_invoice"
      (fun db => (db, (.error (.validationError "x") : Except AppErr Nat)))
      DB.empty (by decide)⟩

/-- C3: `add_patient` followed by `get_patient` on the returned identity
yields a patient equal to the input in every field, with the id set to the
returned identity (which is the auto-increment counter value). -/
theorem C3_create_then_get (db : DB) (p : Patient) (h : db.freshPatients) :
    Repo.get_patient (Repo.add_patient db p).1 (Repo.add_patient db p).2
        = some { p with id := some (Repo.add_patient db p).2 }
      ∧ (Repo.add_patient db p).2 = db.nextPatientId :=
  ⟨get_patient_after_add db p h, rfl⟩

/-- Witness for C3 on the empty database and a concrete patient. -/
theorem C3_create_then_get_witness :
    DB.empty.freshPatients
      ∧ (Repo.get_patient (Repo.add_patient DB.empty samplePatient).1
            (Repo.add_patient DB.empty samplePatient).2
            = some { samplePatient with
                      id := some (Repo.add_patient DB.empty samplePatient).2 }
          ∧ (Repo.add_patient DB.empty samplePatient).2
              = DB.empty.nextPatientId) :=
  ⟨fun _ hr => (nomatch hr),
    C3_create_then_get DB.empty samplePatient (fun _ hr => (nomatch hr))⟩

/-- C4: with a parsable age, patient-form validation succeeds exactly when
the stripped phone is ten decimal digits; a failing phone yields
`ValidationError` and `on_save_patient` then leaves the store untouched;
`"12345"` and `"12345678901"` are rejected while `"9876543210"` passes. -/
theorem C4_phone_validation (form : PatientForm) (a : Int)
    (h : intOfStr form.ageStr = some a) :
    (validate_patient form).isOk = phoneOk (strip form.phone)
      ∧ (phoneOk (strip form.phone) = false →
          validate_patient form
            = .error (.validationError "Phone must be 10 digits"))
      ∧ (∀ role : String, ∀ db : DB, role ∈ patientRoles →
          phoneOk (strip form.phone) = false →
          on_save_patient role db form
            = (db, .error (.validationError "Phone must be 10 digits")))
      ∧ phoneOk "12345" = false
      ∧ phoneOk "12345678901" = false
      ∧ phoneOk "9876543210" = true := by
  refine ⟨?_, ?_, ?_, by decide, by decide, by decide⟩
  · cases hph : phoneOk (strip form.phone) <;>
      simp [validate_patient, h, hph, Except.isOk, Except.toBool]
  · intro hph
    simp [validate_patient, h, hph]
  · intro role db hrole hph
    simp [on_save_patient, require_role, hrole, validate_patient, h, hph]

/-- Witness for C4 at a concrete form whose phone is `"12345"`. -/
theorem C4_phone_validation_witness :
    intOfStr "30" = some 30
      ∧ ((validate_patient
            ⟨"Asha", "30", "Female", "12345", "Flu", "New"⟩).isOk
            = phoneOk (strip "12345")
          ∧ (phoneOk (strip "12345") = false →
              validate_patient ⟨"Asha", "30", "Female", "12345", "Flu", "New"⟩
                = .error (.validationError "Phone must be 10 digits"))
          ∧ (∀ role : String, ∀ db : DB, role ∈ patientRoles →
              phoneOk (strip "12345") = false →
              on_save_patient role db
                  ⟨"Asha", "30", "Female", "12345", "Flu", "New"⟩
                = (db, .error (.validationError "Phone must be 10 digits")))
          ∧ phoneOk "12345" = false
          ∧ phoneOk "12345678901" = false
          ∧ phoneOk "9876543210" = true) :=
  ⟨rfl, C4_phone_validation ⟨"Asha", "30", "Female", "12345", "Flu", "New"⟩ 30 rfl⟩

/-- C5: updating a patient whose identity is absent fails with
`ValidationError` and returns the store unchanged. -/
theorem C5_update_without_id (db : DB) (p : Patient) (h : p.id = none) :
    Repo.update_patient db p
      = (db, .error (.validationError "Patient ID required for update")) := by
  simp [Repo.update_patient, h]

/-- Witness for C5: the sample patient carries no identity. -/
theorem C5_update_without_id_witness :
    samplePatient.id = none
      ∧ Repo.update_patient db3 samplePatient
          = (db3, .error (.validationError "Patient ID required for update")) :=
  ⟨rfl, C5_update_without_id db3 samplePatient rfl⟩

/-- C6: for a syntactically valid pattern, `regex_query` returns exactly the
`(name, id)` pairs of the patients whose chosen field value (null read as the
empty string) contains a case-insensitive unanchored match; on the sample
store, `covid|flu` over `disease` returns patients 1 and 2, and `COVID`
matches the same rows as `covid`. -/
theorem C6_regex_search (db : DB) (pattern field : String) (rx : Regex)
    (h : compile pattern = .ok rx) :
    Repo.regex_query db pattern field
        = .ok (db.patients.filterMap (fun r =>
            if searchCI rx ((colVal (colOf field) r).getD "") then
              some (r.name, r.id)
            else none))
      ∧ (∀ nm : String, ∀ pid : Nat,
          (nm, pid) ∈ (db.patients.filterMap (fun r =>
              if searchCI rx ((colVal (colOf field) r).getD "") then
                some (r.name, r.id)
              else none))
            ↔ ∃ r ∈ db.patients, r.name = nm ∧ r.id = pid
                ∧ searchCI rx ((colVal (colOf field) r).getD "") = true)
      ∧ Repo.regex_query db3 "covid|flu" "disease" = .ok [("A", 1), ("B", 2)]
      ∧ Repo.regex_query db3 "COVID" "disease" = .ok [("A", 1)]
      ∧ Repo.regex_query db3 "covid" "disease" = .ok [("A", 1)] := by
  refine ⟨by simp [Repo.regex_query, h], ?_, by rfl, by rfl, by rfl⟩
  intro nm pid
  rw [List.mem_filterMap]
  constructor
  · rintro ⟨r, hr, hf⟩
    cases hs : searchCI rx ((colVal (colOf field) r).getD "") with
    | false => simp [hs] at hf
    | true =>
        rw [if_pos hs] at hf
        obtain ⟨h1, h2⟩ := Prod.mk.injEq .. ▸ Option.some.injEq .. ▸ hf
        exact ⟨r, hr, h1, h2, hs⟩
  · rintro ⟨r, hr, h1, h2, hs⟩
    exact ⟨r, hr, by rw [if_pos hs, h1, h2]⟩

/-- Witness for C6 at the compiled form of `covid|flu`. -/
theorem C6_regex_search_witness :
    compile "covid|flu" = .ok covidFluRx
      ∧ (Repo.regex_query db3 "covid|flu" "disease"
            = .ok (db3.patients.filterMap (fun r =>
                if searchCI covidFluRx ((colVal (colOf "disease") r).getD "") then
                  some (r.name, r.id)
                else none))
          ∧ (∀ nm : String, ∀ pid : Nat,
              (nm, pid) ∈ (db3.patients.filterMap (fun r =>
                  if searchCI covidFluRx ((colVal (colOf "disease") r).getD "")
                  then some (r.name, r.id)
                  else none))
                ↔ ∃ r ∈ db3.patients, r.name = nm ∧ r.id = pid
                    ∧ searchCI covidFluRx ((colVal (colOf "disease") r).getD "")
                        = true)
          ∧ Repo.regex_query db3 "covid|flu" "disease"
              = .ok [("A", 1), ("B", 2)]
          ∧ Repo.regex_query db3 "COVID" "disease" = .ok [("A", 1)]
          ∧ Repo.regex_query db3 "covid" "disease" = .ok [("A", 1)]) :=
  ⟨rfl, C6_regex_search db3 "covid|flu" "disease" covidFluRx rfl⟩

/-- C7: a pattern that does not compile makes `regex_query` fail with a
`PatternError` and no result sequence, and `on_regex_search` then leaves the
previously displayed results untouched. -/
theorem C7_malformed_pattern (db : DB) (field pattern : String) (e : String)
    (h : compile pattern = .error e) :
    Repo.regex_query db pattern field = .error (.patternError e)
      ∧ (∀ ui : ReportsUI, ∀ raw : String, strip raw = pattern →
          on_regex_search db ui raw field = (ui, some (.patternError e))) := by
  refine ⟨by simp [Repo.regex_query, h], ?_⟩
  intro ui raw hraw
  simp [on_regex_search, hraw, Repo.regex_query, h]

/-- Witness for C7 at the unbalanced group `(ab`. -/
theorem C7_malformed_pattern_witness :
    compile "(ab" = .error "missing ), unterminated subpattern"
      ∧ strip "(ab" = "(ab"
      ∧ (Repo.regex_query db3 "(ab" "disease"
            = .error (.patternError "missing ), unterminated subpattern")
          ∧ (∀ ui : ReportsUI, ∀ raw : String, strip raw = "(ab" →
              on_regex_search db3 ui raw "disease"
                = (ui,
                    some (.patternError "missing ), unterminated subpattern")))) :=
  ⟨rfl, rfl, C7_malformed_pattern db3 "disease" "(ab"
    "missing ), unterminated subpattern" rfl⟩

/-- C8: any field argument other than `status` and `name` silently searches
the `disease` column: the query result coincides with the `disease` query for
every pattern and store. -/
theorem C8_silent_field_fallback (db : DB) (pattern field : String)
    (h1 : field ≠ "status") (h2 : field ≠ "name") :
    Repo.regex_query db pattern field = Repo.regex_query db pattern "disease" := by
  have hcol : colOf field = "disease" := by simp [colOf, h1, h2]
  simp only [Repo.regex_query]
  rw [hcol, show colOf "disease" = "disease" from rfl]

/-- Witness for C8 at the unrecognized field `phone`. -/
theorem C8_silent_field_fallback_witness :
    "phone" ≠ "status" ∧ "phone" ≠ "name"
      ∧ Repo.regex_query db3 "covid" "phone"
          = Repo.regex_query db3 "covid" "disease" :=
  ⟨by decide, by decide,
    C8_silent_field_fallback db3 "covid" "phone" (by decide) (by decide)⟩

/-- C9: deleting a patient removes its row and cascades to every appointment
and invoice referencing it, and a store satisfying referential integrity
still satisfies it afterwards — no orphan rows remain. -/
theorem C9_cascade_delete (db : DB) (pid : Nat) (h : db.refIntegrity) :
    (∀ a ∈ (deletePatient db pid).appointments, a.patient_id ≠ pid)
      ∧ (∀ i ∈ (deletePatient db pid).invoices, i.patient_id ≠ pid)
      ∧ Repo.get_patient (deletePatient db pid) pid = none
      ∧ (deletePatient db pid).refIntegrity := by
  obtain ⟨hA, hI⟩ := h
  refine ⟨?_, ?_, ?_, ?_, ?_⟩
  · intro a ha
    simpa using (List.mem_filter.1 ha).2
  · intro i hi
    simpa using (List.mem_filter.1 hi).2
  · have hfind : (deletePatient db pid).patients.find? (fun r => r.id = pid)
        = none := by
      rw [List.find?_eq_none]
      intro r hr
      simpa using (List.mem_filter.1 hr).2
    simp [Repo.get_patient, hfind]
  · intro a ha
    have ⟨haMem, haNe⟩ := List.mem_filter.1 ha
    obtain ⟨r, hrMem, hrId⟩ := hA a haMem
    refine ⟨r, List.mem_filter.2 ⟨hrMem, ?_⟩, hrId⟩
    simpa [hrId] using haNe
  · intro i hi
    have ⟨hiMem, hiNe⟩ := List.mem_filter.1 hi
    obtain ⟨r, hrMem, hrId⟩ := hI i hiMem
    refine ⟨r, List.mem_filter.2 ⟨hrMem, ?_⟩, hrId⟩
    simpa [hrId] using hiNe

/-- Witness for C9: deleting patient 1 from the populated sample store. -/
theorem C9_cascade_delete_witness :
    db9.refIntegrity
      ∧ ((∀ a ∈ (deletePatient db9 1).appointments, a.patient_id ≠ 1)
          ∧ (∀ i ∈ (deletePatient db9 1).invoices, i.patient_id ≠ 1)
          ∧ Repo.get_patient (deletePatient db9 1) 1 = none
          ∧ (deletePatient db9 1).refIntegrity) :=
  ⟨by unfold DB.refIntegrity; decide,
    C9_cascade_delete db9 1 (by unfold DB.refIntegrity; decide)⟩

/-- C10: the store adapter validates nothing: `add_patient` inserts the row
and returns the generated identity even when the phone fails the ten-digit
test that `_validate_patient` enforces at the presentation boundary. -/
theorem C10_adapter_skips_validation (db : DB) (p : Patient)
    (hphone : phoneOk p.phone = false) (hfresh : db.freshPatients) :
    (Repo.add_patient db p).2 = db.nextPatientId
      ∧ (Repo.add_patient db p).1.patients
          = db.patients ++
              [⟨db.nextPatientId, p.name, p.age, p.gender, p.phone,
                some p.disease, some p.status⟩]
      ∧ Repo.get_patient (Repo.add_patient db p).1 (Repo.add_patient db p).2
          = some { p with id := some (Repo.add_patient db p).2 }
      ∧ (∀ form : PatientForm, ∀ a : Int, intOfStr form.ageStr = some a →
          strip form.phone = p.phone →
          validate_patient form
            = .error (.validationError "Phone must be 10 digits")) := by
  refine ⟨rfl, rfl, get_patient_after_add db p hfresh, ?_⟩
  intro form a ha hp
  simp [validate_patient, ha, hp, hphone]

/-- Witness for C10: a patient whose phone is the rejected `"12345"` is still
inserted by the adapter. -/
theorem C10_adapter_skips_validation_witness :
    phoneOk badPhonePatient.phone = false
      ∧ DB.empty.freshPatients
      ∧ ((Repo.add_patient DB.empty badPhonePatient).2 = DB.empty.nextPatientId
          ∧ (Repo.add_patient DB.empty badPhonePatient).1.patients
              = DB.empty.patients ++
                  [⟨DB.empty.nextPatientId, badPhonePatient.name,
                    badPhonePatient.age, badPhonePatient.gender,
                    badPhonePatient.phone, some badPhonePatient.disease,
                    some badPhonePatient.status⟩]
          ∧ Repo.get_patient (Repo.add_patient DB.empty badPhonePatient).1
                (Repo.add_patient DB.empty badPhonePatient).2
              = some { badPhonePatient with
                        id := some (Repo.add_patient DB.empty badPhonePatient).2 }
          ∧ (∀ form : PatientForm, ∀ a : Int, intOfStr form.ageStr = some a →
              strip form.phone = badPhonePatient.phone →
              validate_patient form
                = .error (.validationError "Phone must be 10 digits"))) :=
  ⟨rfl, fun _ hr => (nomatch hr),
    C10_adapter_skips_validation DB.empty badPhonePatient rfl
      (fun _ hr => (nomatch hr))⟩

end MediTrack
